import Mathlib

/-!
Verification development for the object-store demo (orchestrator,
object_receiver_service, object_getter_service).

The Python sources are shallowly embedded: the fallible result of
`json.loads` on a message body is modelled as `Option Json` (with `none`
for a body that does not parse), a Python value that may be `None` is
modelled as `Option Json` (with `none` for Python `None`, serialised by
`json.dumps` to JSON `null`), and a Python call that may raise is
modelled as `Except String _` (the `String` being the exception text).
Collaborator calls (the blob store, the bus transport) are passed in as
function parameters or scenario data, so the control flow of the
embedded functions is exactly that of the source.
-/

/-- JSON values, as produced by `json.loads`. An `obj` models a parsed
Python dict (its field list is the association list of the dict). -/
inductive Json where
  | null
  | bool (b : Bool)
  | str (s : String)
  | num (n : Int)
  | arr (xs : List Json)
  | obj (fields : List (String × Json))

/-- Queue names shared by all three services
(`orchestrator.py` lines 21-23). -/
def WRITE_QUEUE : String := "object_write_queue"

def READ_QUEUE : String := "object_read_queue"

def RESPONSE_QUEUE : String := "object_response_queue"

/-- The request envelope fields read by the workers:
`message.get("event_type")`, `message.get("payload")`,
`message.get("request_id")`. Each `get` yields `none` when the key is
absent (Python `None`). -/
structure RequestEnvelope where
  event_type : Option Json
  payload : Option Json
  request_id : Option Json

/-- Decoding an inbound body as a request envelope: `json.loads(body)`
followed by the three `.get` calls. A body that does not parse
(`body = none`) or parses to a non-dict (on which `.get` raises
`AttributeError`) fails to decode. -/
def decode_request_envelope (body : Option Json) : Option RequestEnvelope :=
  match body with
  | some (.obj fields) =>
      some ⟨fields.lookup "event_type", fields.lookup "payload",
            fields.lookup "request_id"⟩
  | _ => none

/-- The fixed error envelope produced for an unknown event type
(`object_receiver.py` line 82, `object_getter.py` line 189). -/
def unknownEventError : Json := .obj [("error", .str "Unknown event type")]

/-- An `error` response envelope carrying a business-fault message, as
returned by the handlers from their internal `except` blocks
(`return {"error": str(e)}`). -/
def errorEnvelope (msg : String) : Json := .obj [("error", .str msg)]

/-- `json.dumps` applied to a handler result that may be Python `None`:
`None` serialises to JSON `null`. -/
def pyJson (r : Option Json) : Json := r.getD .null

/-- What the dispatch loop does with the inbound delivery:
`ch.basic_ack` or `ch.basic_nack` (the latter with the default
`requeue=True`, so the bus redelivers the message). -/
inductive DeliveryAction where
  | ack
  | nack
deriving DecidableEq, Repr

/-- Observable outcome of one `process_message` invocation: the reply
publication, if any, as (routing key, JSON body), and the delivery
action on the inbound message. -/
structure ProcessOutcome where
  published : Option (String × Json)
  delivery : DeliveryAction

/-- A worker handler as seen by the dispatch loop: given the payload and
request id values from the envelope, it either returns a Python value or
raises. The four handlers that wrap their whole body in
`try/except ... return {"error": str(e)}` never raise; they are
instantiated with `.ok` results. -/
def HandlerFn : Type := Option Json → Option Json → Except String (Option Json)

/-- `process_message` of `object_receiver.py` (lines 64-102).
The body of the `try` block: decode the envelope (a failure anywhere in
it reaches the outer `except`, which negatively-acknowledges), route on
`event_type` through the `if/elif` chain to one of the three handlers
(an unknown type yields the fixed error envelope and calls no handler),
publish `json.dumps(result)` to `properties.reply_to` when that is set,
and acknowledge. A handler that raises reaches the outer `except` and
negatively-acknowledges. The reply publish itself is modelled as
fault-free (transport faults are outside these claims). -/
def receiver_process_message (reply_to : Option String) (body : Option Json)
    (h_upload_image h_upload_pdf h_create_object : HandlerFn) :
    ProcessOutcome :=
  match decode_request_envelope body with
  | none => ⟨none, .nack⟩
  | some env =>
    let r : Except String (Option Json) :=
      match env.event_type with
      | some (.str s) =>
          if s = "upload_image" then h_upload_image env.payload env.request_id
          else if s = "upload_pdf" then h_upload_pdf env.payload env.request_id
          else if s = "create_object" then
            h_create_object env.payload env.request_id
          else .ok (some unknownEventError)
      | _ => .ok (some unknownEventError)
    match r with
    | .error _ => ⟨none, .nack⟩
    | .ok result =>
        ⟨reply_to.map (fun q => (q, pyJson result)), .ack⟩

/-- `process_message` of `object_getter.py` (lines 171-208). Same shape
as the receiver loop, with two differences taken from the source: after
`handle_list_objects` the loop evaluates
`len(result.get("objects", []))`, which raises (hence nack) when the
result is not a dict, and after `handle_get_object` it evaluates
`payload.get("object_id")`, which raises (hence nack) when the payload
is not a dict. -/
def getter_process_message (reply_to : Option String) (body : Option Json)
    (h_list_objects h_get_object : Option Json → Except String (Option Json)) :
    ProcessOutcome :=
  match decode_request_envelope body with
  | none => ⟨none, .nack⟩
  | some env =>
    let r : Except String (Option Json) :=
      match env.event_type with
      | some (.str s) =>
          if s = "list_objects" then
            (h_list_objects env.payload).bind (fun v =>
              match v with
              | some (.obj _) => .ok v
              | _ => .error "AttributeError")
          else if s = "get_object" then
            (h_get_object env.payload).bind (fun v =>
              match env.payload with
              | some (.obj _) => .ok v
              | _ => .error "AttributeError")
          else .ok (some unknownEventError)
      | _ => .ok (some unknownEventError)
    match r with
    | .error _ => ⟨none, .nack⟩
    | .ok result =>
        ⟨reply_to.map (fun q => (q, pyJson result)), .ack⟩

/-- A message body carrying the three envelope keys with an arbitrary
JSON value in the `event_type` position. -/
def mkBodyJ (et p rid : Json) : Option Json :=
  some (.obj [("event_type", et), ("payload", p), ("request_id", rid)])

/-- A message body carrying the three envelope keys, as built by the
orchestrator endpoints before `json.dumps`. -/
def mkBody (et : String) (p rid : Json) : Option Json :=
  mkBodyJ (.str et) p rid

/-- The closed set of event types the receiver dispatch loop routes to a
handler (the `if/elif` chain of `object_receiver.py` lines 74-79). -/
def receiver_supported_event (et : Option Json) : Bool :=
  match et with
  | some (.str s) =>
      decide (s = "upload_image" ∨ s = "upload_pdf" ∨ s = "create_object")
  | _ => false

/-- The closed set of event types the getter dispatch loop routes to a
handler (the `if/elif` chain of `object_getter.py` lines 181-185). -/
def getter_supported_event (et : Option Json) : Bool :=
  match et with
  | some (.str s) => decide (s = "list_objects" ∨ s = "get_object")
  | _ => false

/-- An operation against the blob store, as performed by the handlers
(`minio_client.put_object(...)`). -/
inductive StoreOp where
  | putObject (bucket objectName : String)
deriving DecidableEq, Repr

/-- `handle_create_object` of `object_receiver.py` (lines 104-107): it
reads `payload.get("object_id")` and `payload.get("data")`, performs no
store operation (the body ends at the comment
`# Rest of the object creation logic`), and falls off the end, returning
Python `None`. The result pairs the (empty) list of store operations
with the returned value. -/
def handle_create_object (payload : List (String × Json))
    (request_id : Option Json) : List StoreOp × Option Json :=
  let object_id := payload.lookup "object_id"
  let data := payload.lookup "data"
  ([], none)

/-- `handle_create_object` as invoked by the dispatch loop: the payload
value from the envelope may be Python `None` or a non-dict, on which
`payload.get` raises `AttributeError` (uncaught, since this handler has
no `try` block). -/
def handle_create_object_call : HandlerFn := fun payload request_id =>
  match payload with
  | some (.obj fields) => .ok (handle_create_object fields request_id).2
  | _ => .error "AttributeError"

/-- The hexadecimal digit character for a value below 16, as produced by
Python `bytes.hex()` (lowercase). -/
def hexDigitChar (n : Nat) : Char :=
  if n < 10 then Char.ofNat (48 + n) else Char.ofNat (87 + n)

/-- One byte rendered as two hex digits, high nibble first. -/
def byteToHex (b : Fin 256) : List Char :=
  [hexDigitChar (b.val / 16), hexDigitChar (b.val % 16)]

/-- Python `content.hex()`: each byte becomes two lowercase hex digits
(`orchestrator.py` line 146, `object_getter.py` lines 310 and 317). -/
def bytes_hex : List (Fin 256) → List Char
  | [] => []
  | b :: bs => byteToHex b ++ bytes_hex bs

/-- The value of a hexadecimal digit character, computed from its
character code (digits, then lowercase, then uppercase letters), or
`none` for any other character. -/
def hexDigitVal (c : Char) : Option (Fin 16) :=
  let n := c.toNat
  if hd : 48 ≤ n ∧ n ≤ 57 then some ⟨n - 48, by omega⟩
  else if hlo : 97 ≤ n ∧ n ≤ 102 then some ⟨n - 87, by omega⟩
  else if hup : 65 ≤ n ∧ n ≤ 70 then some ⟨n - 55, by omega⟩
  else none

/-- Python `bytes.fromhex`: pairs of hex digits, spaces between bytes
skipped; `none` models the `ValueError` on any other input
(`object_receiver.py` lines 112 and 153, `orchestrator.py` line 310). -/
def bytes_fromhex : List Char → Option (List (Fin 256))
  | [] => some []
  | c :: rest =>
    if c = ' ' then bytes_fromhex rest
    else
      match rest with
      | [] => none
      | c2 :: rest2 =>
        match hexDigitVal c, hexDigitVal c2 with
        | some h, some l =>
            (bytes_fromhex rest2).map
              (fun bs =>
                (⟨h.val * 16 + l.val, by
                    have hh := h.isLt
                    have hl := l.isLt
                    omega⟩ : Fin 256) :: bs)
        | _, _ => none

/-- Result of one invocation of the `response_callback` closure in
`list_objects` (lines 188-193) and `get_object` (lines 260-265): the
`response` slot after the call, whether the message was acknowledged,
and whether `json.loads` raised inside the callback. -/
structure CallbackResult where
  slot : Option Json
  acked : Bool
  raised : Bool

/-- `response_callback`: if the correlation id of the inbound message
equals the request id, decode the body into the `response` slot and
acknowledge; otherwise do nothing at all (the body of the `if` is the
whole callback). A matching message whose body does not parse raises
out of the callback before the slot assignment and the ack. -/
def response_callback (request_id : String) (slot : Option Json)
    (correlation_id : Option String) (body : Option Json) : CallbackResult :=
  if correlation_id = some request_id then
    match body with
    | some j => ⟨some j, true, false⟩
    | none => ⟨slot, false, true⟩
  else ⟨slot, false, false⟩

/-- How the setup phase of a call (open the reply channel, declare the
reply queue, start the consumer, lines 184-200 resp. 256-272) goes:
either it completes, or some step raises. -/
inductive SetupPhase where
  | ok
  | raises
deriving DecidableEq, Repr

/-- How the wait loop (lines 214-218 resp. 286-290) ends: a matching
reply fills the slot, the 10-second deadline passes with the slot still
empty, or an iteration of `process_data_events` raises (for example a
matching reply whose body does not parse). -/
inductive WaitPhase where
  | reply (resp : Json)
  | timeout
  | raises

/-- Behaviour of the cleanup block (lines 221-226 resp. 293-298): it
runs `basic_cancel`, then `queue_delete`, then `close`, inside a
`try/except` that swallows the first exception, so a raising step skips
the steps after it. -/
inductive CleanupFault where
  | noFault
  | cancelRaises
  | deleteRaises
  | closeRaises
deriving DecidableEq, Repr

/-- One scenario for a call-and-wait endpoint invocation. -/
structure CallScenario where
  setup : SetupPhase
  wait : WaitPhase
  cleanup : CleanupFault

/-- Which cleanup steps took effect under a given cleanup behaviour. -/
structure CleanupResult where
  consumerCancelled : Bool
  queueDeleted : Bool
deriving DecidableEq, Repr

def run_cleanup : CleanupFault → CleanupResult
  | .noFault => ⟨true, true⟩
  | .cancelRaises => ⟨false, false⟩
  | .deleteRaises => ⟨true, false⟩
  | .closeRaises => ⟨true, true⟩

/-- What an endpoint invocation produces at the HTTP layer: a 200
response, or a raised `HTTPException` with a status code. -/
inductive HttpOutcome where
  | ok (resp : Json)
  | httpError (status : Nat)

/-- Final observable state of one endpoint invocation: whether the
reply-queue consumer was cancelled, whether the reply queue was
deleted, and the HTTP outcome. -/
structure EndpointResult where
  consumerCancelled : Bool
  queueDeleted : Bool
  outcome : HttpOutcome

/-- `list_objects` (lines 164-239). The whole body sits in a `try`
whose handlers re-raise `HTTPException` and turn anything else into a
500; the cleanup block sits after the wait loop, inside the `try`, so a
raise during setup or during the wait propagates without cancelling the
consumer or deleting the queue. On timeout the cleanup runs and then a
408 is raised; on a reply the cleanup runs and the decoded response is
returned. (`publish_message` is modelled as returning `True`, which it
always does when it returns at all, see `publish_message` below.) -/
def list_objects_run (s : CallScenario) : EndpointResult :=
  match s.setup with
  | .raises => ⟨false, false, .httpError 500⟩
  | .ok =>
    match s.wait with
    | .raises => ⟨false, false, .httpError 500⟩
    | .timeout =>
        let c := run_cleanup s.cleanup
        ⟨c.consumerCancelled, c.queueDeleted, .httpError 408⟩
    | .reply resp =>
        let c := run_cleanup s.cleanup
        ⟨c.consumerCancelled, c.queueDeleted, .ok resp⟩

/-- The branch of `get_object` after cleanup (lines 300-319): 408 when
the slot is still empty is handled by the caller below; here, an
`error` key yields 404, `type == "json"` returns the `data` member,
`type` in `image`/`pdf` decodes the hex payload and streams it (a
missing key raises `KeyError`, hence 500; an undecodable hex payload
raises `ValueError`, hence 500), any other `type` yields 400, and a
non-dict response raises on `"error" in response`, hence 500. -/
def get_object_reply_outcome (resp : Json) : HttpOutcome :=
  match resp with
  | .obj fields =>
    if (fields.lookup "error").isSome then .httpError 404
    else
      match fields.lookup "type" with
      | none => .httpError 500
      | some ty =>
        match ty with
        | .str tys =>
          if tys = "json" then
            match fields.lookup "data" with
            | some d => .ok d
            | none => .httpError 500
          else if tys = "image" ∨ tys = "pdf" then
            match fields.lookup "data" with
            | some (.str hx) =>
              match bytes_fromhex hx.toList with
              | some _ => .ok (.str hx)
              | none => .httpError 500
            | _ => .httpError 500
          else .httpError 400
        | _ => .httpError 400
  | _ => .httpError 500

/-- `get_object` (lines 241-328): identical call-and-wait skeleton to
`list_objects`; only the handling of a received reply differs. -/
def get_object_run (s : CallScenario) : EndpointResult :=
  match s.setup with
  | .raises => ⟨false, false, .httpError 500⟩
  | .ok =>
    match s.wait with
    | .raises => ⟨false, false, .httpError 500⟩
    | .timeout =>
        let c := run_cleanup s.cleanup
        ⟨c.consumerCancelled, c.queueDeleted, .httpError 408⟩
    | .reply resp =>
        let c := run_cleanup s.cleanup
        ⟨c.consumerCancelled, c.queueDeleted, get_object_reply_outcome resp⟩

/-- State of `RabbitMQConnection` (lines 25-30): whether the connection
is open, and the current `reconnect_delay`. `__init__` starts
disconnected with delay 1. -/
structure ConnState where
  connected : Bool
  reconnect_delay : Nat
deriving DecidableEq, Repr

def initConnState : ConnState := ⟨false, 1⟩

/-- `max_reconnect_delay` (line 30). -/
def max_reconnect_delay : Nat := 30

/-- Outcome of one `connect()` attempt. -/
inductive ConnectAttempt where
  | ok
  | fails
deriving DecidableEq, Repr

/-- One iteration of the `ensure_connection` loop while disconnected
(lines 59-66), given the outcome of the `connect()` attempt. On
success, `connect` resets `reconnect_delay` to 1 (line 51) and the
state becomes connected. On failure, the loop sleeps for the current
`reconnect_delay` (returned as the second component) and then doubles
it, capped at `max_reconnect_delay` (lines 64-65). -/
def ensure_connection_step (s : ConnState) :
    ConnectAttempt → ConnState × Option Nat
  | .ok => (⟨true, 1⟩, none)
  | .fails =>
      (⟨false, min (s.reconnect_delay * 2) max_reconnect_delay⟩,
       some s.reconnect_delay)

/-- Run `n` consecutive failed connect attempts from state `s`,
collecting the observed sleep durations in order. -/
def run_failures : ConnState → Nat → ConnState × List Nat
  | s, 0 => (s, [])
  | s, n + 1 =>
      ((run_failures (ensure_connection_step s .fails).1 n).1,
       s.reconnect_delay ::
         (run_failures (ensure_connection_step s .fails).1 n).2)

/-- The delay-update function of lines 65, 71 and 88. -/
def nextDelay (d : Nat) : Nat := min (d * 2) max_reconnect_delay

/-- The reconnect delay in force before the `(n+1)`-th consecutive
failure, starting from delay `d`. -/
def delayFrom (d : Nat) : Nat → Nat
  | 0 => d
  | n + 1 => nextDelay (delayFrom d n)

/-- `publish_message` (lines 73-88) viewed through the sequence of its
iteration outcomes: element `k` of the trace is `true` when the `k`-th
iteration (`ensure_connection()`, then `basic_publish` on the
then-connected channel) completes without raising. The loop returns
`True` at the first successful iteration (line 84); a raising iteration
is caught, sleeps, and retries. A finite trace with no successful
element means the call has not returned (`none`): the loop is still
retrying and will retry indefinitely. -/
def publish_message : List Bool → Option Bool
  | [] => none
  | a :: rest => if a then some true else publish_message rest

/-- A bus operation performed by a call-and-wait endpoint. -/
inductive BusAction where
  | openChannel
  | declareQueue (q : String)
  | startConsumer (q : String)
  | publishRequest (queue corr : String)
  | waitLoop
  | cancelConsumer
  | deleteQueue (q : String)
  | closeChannel

def isStartConsumer : BusAction → Bool
  | .startConsumer _ => true
  | _ => false

def isPublishRequest : BusAction → Bool
  | .publishRequest _ _ => true
  | _ => false

/-- `f"response_{request_id}"` (lines 183 and 255). -/
def reply_queue_name (request_id : String) : String :=
  "response_" ++ request_id

/-- The bus operations of the happy path of `list_objects`
(lines 182-224), in source order: open the reply channel, declare the
reply queue, `basic_consume`, `publish_message` to the read queue, the
wait loop, then `basic_cancel`, `queue_delete`, `close`. -/
def list_objects_actions (request_id : String) : List BusAction :=
  [ .openChannel,
    .declareQueue (reply_queue_name request_id),
    .startConsumer (reply_queue_name request_id),
    .publishRequest READ_QUEUE request_id,
    .waitLoop,
    .cancelConsumer,
    .deleteQueue (reply_queue_name request_id),
    .closeChannel ]

/-- The bus operations of the happy path of `get_object`
(lines 254-296), in the same source order as `list_objects`. -/
def get_object_actions (request_id : String) : List BusAction :=
  [ .openChannel,
    .declareQueue (reply_queue_name request_id),
    .startConsumer (reply_queue_name request_id),
    .publishRequest READ_QUEUE request_id,
    .waitLoop,
    .cancelConsumer,
    .deleteQueue (reply_queue_name request_id),
    .closeChannel ]

/-- Python `name.split('-', 1)[1]` (`object_getter.py` lines 312 and
319): everything after the first hyphen; `none` models the `IndexError`
raised by the index when the name contains no hyphen. -/
def split_first_hyphen_tail : List Char → Option (List Char)
  | [] => none
  | c :: rest =>
      if c = '-' then some rest else split_first_hyphen_tail rest

/-- `f"{object_id}-{filename}"`, the stored object name built by
`handle_upload_image` and `handle_upload_pdf`
(`object_receiver.py` lines 117 and 158). -/
def upload_object_name (object_id filename : List Char) : List Char :=
  object_id ++ '-' :: filename

/-- The binary (image or pdf) response envelope built by
`handle_get_object` (`object_getter.py` lines 307-320). -/
structure BinaryEnvelope where
  kind : String
  dataHex : List Char
  mime_type : String
  filename : List Char

/-- The image/pdf branch of `handle_get_object`: the `filename` field is
`full_object_name.split('-', 1)[1]`; `none` models the branch raising
`IndexError` (caught by the outer handler, which then returns an error
envelope instead). -/
def binary_response (kind : String) (full_object_name : List Char)
    (content : List (Fin 256)) (content_type : String) :
    Option BinaryEnvelope :=
  (split_first_hyphen_tail full_object_name).map
    (fun fn => ⟨kind, bytes_hex content, content_type, fn⟩)

/-- Decoding inverts encoding on a single hex digit. -/
theorem hexDigitVal_hexDigitChar :
    ∀ n : Fin 16, hexDigitVal (hexDigitChar n.val) = some n := by decide

/-- Hex digit characters are never the space skipped by `fromhex`. -/
theorem hexDigitChar_ne_space : ∀ n : Fin 16, hexDigitChar n.val ≠ ' ' := by
  decide

/-- Decoding a two-digit byte block at the head of a hex string peels
off exactly that byte. -/
theorem bytes_fromhex_byte (b : Fin 256) (rest : List Char) :
    bytes_fromhex (byteToHex b ++ rest) =
      (bytes_fromhex rest).map (fun bs => b :: bs) := by
  have hdiv : b.val / 16 < 16 := by omega
  have hmod : b.val % 16 < 16 := by omega
  have h1 := hexDigitVal_hexDigitChar ⟨b.val / 16, hdiv⟩
  have h2 := hexDigitVal_hexDigitChar ⟨b.val % 16, hmod⟩
  have hs := hexDigitChar_ne_space ⟨b.val / 16, hdiv⟩
  simp only [byteToHex, List.cons_append, List.nil_append]
  rw [bytes_fromhex]
  rw [if_neg hs]
  rw [h1, h2]
  change Option.map
      (fun bs => (⟨b.val / 16 * 16 + b.val % 16, by omega⟩ : Fin 256) :: bs)
      (bytes_fromhex rest) =
    Option.map (fun bs => b :: bs) (bytes_fromhex rest)
  congr 1
  funext bs
  congr 1
  exact Fin.ext (show b.val / 16 * 16 + b.val % 16 = b.val by omega)

/-- C9: the envelope codec encoding (`content.hex()`) and decoding
(`bytes.fromhex`) are exact inverses: for every byte string, including
the empty one and strings of any length, decoding the hex string
produced by encoding yields the original bytes, byte for byte. -/
theorem C9_hex_roundtrip :
    ∀ bs : List (Fin 256), bytes_fromhex (bytes_hex bs) = some bs := by
  intro bs
  induction bs with
  | nil => rfl
  | cons b rest ih =>
      rw [bytes_hex, bytes_fromhex_byte, ih]
      rfl

/-- A name containing a hyphen always has a tail after its first
hyphen. -/
theorem split_first_hyphen_tail_isSome (u : List Char) (hu : '-' ∈ u) :
    ∃ t, split_first_hyphen_tail u = some t := by
  induction u with
  | nil => cases hu
  | cons c rest ih =>
      by_cases hc : c = '-'
      · exact ⟨rest, by simp [split_first_hyphen_tail, hc]⟩
      · rcases ih (by
          rcases List.mem_cons.mp hu with h | h
          · exact absurd h.symm hc
          · exact h) with ⟨t, ht⟩
        exact ⟨t, by simp [split_first_hyphen_tail, hc, ht]⟩

/-- Splitting at the first hyphen of `object_id ++ "-" ++ filename`,
when `object_id` itself contains a hyphen, splits inside `object_id`. -/
theorem split_first_hyphen_tail_append (u fn t : List Char)
    (h : split_first_hyphen_tail u = some t) :
    split_first_hyphen_tail (upload_object_name u fn) =
      some (t ++ '-' :: fn) := by
  induction u generalizing t with
  | nil => simp [split_first_hyphen_tail] at h
  | cons c rest ih =>
      by_cases hc : c = '-'
      · subst hc
        rw [split_first_hyphen_tail, if_pos rfl, Option.some_inj] at h
        subst h
        rw [upload_object_name, List.cons_append, split_first_hyphen_tail,
          if_pos rfl]
      · rw [split_first_hyphen_tail, if_neg hc] at h
        have h2 := ih t h
        rw [upload_object_name, List.cons_append, split_first_hyphen_tail,
          if_neg hc]
        exact h2

/-- C10: for a stored object named `{object_id}-{filename}` whose
`object_id` part itself contains a hyphen (as generated UUIDs do), the
`filename` field of the binary response envelope built by
`handle_get_object` is everything after the first hyphen of the object
name: it retains the tail of the UUID and differs from the original
filename. -/
theorem C10_filename_keeps_uuid_tail (kind content_type : String)
    (content : List (Fin 256)) (u fn : List Char) (hu : '-' ∈ u) :
    ∃ t env,
      split_first_hyphen_tail u = some t ∧
      binary_response kind (upload_object_name u fn) content content_type =
        some env ∧
      env.filename = t ++ '-' :: fn ∧
      env.filename ≠ fn := by
  rcases split_first_hyphen_tail_isSome u hu with ⟨t, ht⟩
  refine ⟨t, ⟨kind, bytes_hex content, content_type, t ++ '-' :: fn⟩,
    ht, ?_, rfl, ?_⟩
  · rw [binary_response, split_first_hyphen_tail_append u fn t ht]
    rfl
  · intro heq
    have hl := congrArg List.length heq
    simp only [List.length_append, List.length_cons] at hl
    omega

/-- Witness for `C10_filename_keeps_uuid_tail` at a concrete name. -/
theorem C10_filename_witness :
    ∃ t env,
      split_first_hyphen_tail ['a', '-', 'b'] = some t ∧
      binary_response "image" (upload_object_name ['a', '-', 'b'] ['x'])
        [] "image/png" = some env ∧
      env.filename = t ++ '-' :: ['x'] ∧
      env.filename ≠ ['x'] :=
  C10_filename_keeps_uuid_tail "image" "image/png" [] ['a', '-', 'b'] ['x']
    (by decide)

/-- The delay after one more failure, read off the state machine. -/
theorem step_fails_delay (s : ConnState) :
    (ensure_connection_step s .fails).1.reconnect_delay =
      nextDelay s.reconnect_delay := rfl

/-- Shifting the start of the delay iteration by one step. -/
theorem delayFrom_shift (d : Nat) :
    ∀ n, delayFrom (nextDelay d) n = delayFrom d (n + 1) := by
  intro n
  induction n with
  | zero => rfl
  | succ n ih =>
      rw [delayFrom, ih]
      rfl

/-- The sleeps observed during `n` consecutive connection failures are
the iterates of the delay-update function from the starting delay. -/
theorem run_failures_sleeps :
    ∀ (n : Nat) (s : ConnState),
      (run_failures s n).2 =
        (List.range n).map (delayFrom s.reconnect_delay) := by
  intro n
  induction n with
  | zero => intro s; rfl
  | succ n ih =>
      intro s
      show s.reconnect_delay ::
          (run_failures (ensure_connection_step s .fails).1 n).2 = _
      rw [ih, step_fails_delay, List.range_succ_eq_map, List.map_cons,
        List.map_map]
      have hfg : delayFrom (nextDelay s.reconnect_delay) =
          delayFrom s.reconnect_delay ∘ Nat.succ := by
        funext k
        exact delayFrom_shift s.reconnect_delay k
      rw [hfg]
      rfl

/-- The observed backoff delay never exceeds the cap. -/
theorem delayFrom_one_le_cap : ∀ n, delayFrom 1 n ≤ max_reconnect_delay := by
  intro n
  cases n with
  | zero => norm_num [delayFrom, max_reconnect_delay]
  | succ n => exact min_le_right _ _

/-- The observed backoff delays are non-decreasing while failures
continue. -/
theorem delayFrom_one_mono : ∀ n, delayFrom 1 n ≤ delayFrom 1 (n + 1) := by
  intro n
  exact le_min (by omega) (delayFrom_one_le_cap n)

/-- C4: the reconnect backoff starts at 1, sleeps 1, 2, 4, 8, 16, 30,
30, ... on consecutive failures (doubling, capped at 30), the observed
sleep sequence is the iterate of the doubling-with-cap update and is
non-decreasing and bounded by the cap, and any successful `connect()`
resets the delay to 1. -/
theorem C4_backoff_properties :
    initConnState.reconnect_delay = 1 ∧
    (run_failures initConnState 7).2 = [1, 2, 4, 8, 16, 30, 30] ∧
    (∀ n, (run_failures initConnState n).2 =
      (List.range n).map (delayFrom 1)) ∧
    (∀ n, delayFrom 1 n ≤ max_reconnect_delay) ∧
    (∀ n, delayFrom 1 n ≤ delayFrom 1 (n + 1)) ∧
    (∀ s, (ensure_connection_step s .ok).1 = ⟨true, 1⟩) :=
  ⟨rfl, by decide, fun n => run_failures_sleeps n initConnState,
   delayFrom_one_le_cap, delayFrom_one_mono, fun _ => rfl⟩

/-- C5: `publish_message` never reports failure to its caller: whatever
the iteration outcomes, it either has not returned (still retrying) or
returns `True`, and it returns `True` exactly when some iteration
hands the message to a connected channel; a trace of only failures
never returns. -/
theorem C5_publish_never_fails :
    (∀ attempts, publish_message attempts ≠ some false) ∧
    (∀ attempts, publish_message attempts = some true ↔ true ∈ attempts) ∧
    (∀ n, publish_message (List.replicate n false) = none) := by
  refine ⟨?_, ?_, ?_⟩
  · intro attempts
    induction attempts with
    | nil => simp [publish_message]
    | cons a rest ih => cases a <;> simp [publish_message, ih]
  · intro attempts
    induction attempts with
    | nil => simp [publish_message]
    | cons a rest ih => cases a <;> simp [publish_message, ih]
  · intro n
    induction n with
    | zero => rfl
    | succ n ih => simpa [List.replicate_succ, publish_message] using ih

/-- Witness for `C5_publish_never_fails` on concrete traces. -/
theorem C5_publish_witness :
    publish_message [false, true] ≠ some false ∧
    publish_message [false, true] = some true ∧
    publish_message (List.replicate 2 false) = none :=
  ⟨C5_publish_never_fails.1 [false, true],
   (C5_publish_never_fails.2.1 [false, true]).mpr (by decide),
   C5_publish_never_fails.2.2 2⟩

/-- C8: in both call-and-wait endpoints the consumer on the ephemeral
reply queue is started strictly before the request is published: in the
source-order operation sequence, `basic_consume` sits at index 2 and
the single `publish_message` at index 3. -/
theorem C8_consume_before_publish :
    ∀ request_id : String,
      (list_objects_actions request_id).findIdx isStartConsumer = 2 ∧
      (list_objects_actions request_id).findIdx isPublishRequest = 3 ∧
      (list_objects_actions request_id).findIdx isStartConsumer <
        (list_objects_actions request_id).findIdx isPublishRequest ∧
      (list_objects_actions request_id).countP isPublishRequest = 1 ∧
      (get_object_actions request_id).findIdx isStartConsumer = 2 ∧
      (get_object_actions request_id).findIdx isPublishRequest = 3 ∧
      (get_object_actions request_id).findIdx isStartConsumer <
        (get_object_actions request_id).findIdx isPublishRequest ∧
      (get_object_actions request_id).countP isPublishRequest = 1 := by
  intro rid
  refine ⟨rfl, rfl, ?_, rfl, rfl, rfl, ?_, rfl⟩ <;>
    · show (2 : Nat) < 3
      norm_num

/-- C3: `handle_create_object` reads the `object_id` and `data` fields
of the payload, performs no store operation, and returns Python `None`;
consequently a `create_object` request that carries a reply address is
answered with the JSON body `null` and the inbound message is
acknowledged, and one without a reply address is acknowledged with no
reply. -/
theorem C3_create_object_null_reply :
    (∀ pf rid, handle_create_object pf rid = ([], none)) ∧
    (∀ q pf rid h1 h2,
      receiver_process_message (some q)
        (mkBody "create_object" (.obj pf) rid) h1 h2
        handle_create_object_call = ⟨some (q, .null), .ack⟩) ∧
    (∀ pf rid h1 h2,
      receiver_process_message none
        (mkBody "create_object" (.obj pf) rid) h1 h2
        handle_create_object_call = ⟨none, .ack⟩) :=
  ⟨fun _ _ => rfl, fun _ _ _ _ _ => rfl, fun _ _ _ _ => rfl⟩

/-- C2: in both worker dispatch loops, a body that fails to decode as a
request envelope is negatively-acknowledged (and so redelivered by the
bus) with no reply; a business fault returned by the invoked handler as
an `{error: ...}` envelope is published to the reply address when one is
present and the inbound message is acknowledged, never redelivered. -/
theorem C2_decode_nack_fault_ack :
    (∀ rt body h1 h2 h3, decode_request_envelope body = none →
      receiver_process_message rt body h1 h2 h3 = ⟨none, .nack⟩) ∧
    (∀ rt body hl hg, decode_request_envelope body = none →
      getter_process_message rt body hl hg = ⟨none, .nack⟩) ∧
    (∀ q p rid m h2 h3,
      receiver_process_message (some q) (mkBody "upload_image" p rid)
        (fun _ _ => .ok (some (errorEnvelope m))) h2 h3 =
        ⟨some (q, errorEnvelope m), .ack⟩) ∧
    (∀ p rid m h2 h3,
      receiver_process_message none (mkBody "upload_image" p rid)
        (fun _ _ => .ok (some (errorEnvelope m))) h2 h3 = ⟨none, .ack⟩) ∧
    (∀ q p rid m h1 h3,
      receiver_process_message (some q) (mkBody "upload_pdf" p rid)
        h1 (fun _ _ => .ok (some (errorEnvelope m))) h3 =
        ⟨some (q, errorEnvelope m), .ack⟩) ∧
    (∀ q p rid m hg,
      getter_process_message (some q) (mkBody "list_objects" p rid)
        (fun _ => .ok (some (errorEnvelope m))) hg =
        ⟨some (q, errorEnvelope m), .ack⟩) ∧
    (∀ q pf rid m hl,
      getter_process_message (some q) (mkBody "get_object" (.obj pf) rid)
        hl (fun _ => .ok (some (errorEnvelope m))) =
        ⟨some (q, errorEnvelope m), .ack⟩) ∧
    (∀ pf rid m hl,
      getter_process_message none (mkBody "get_object" (.obj pf) rid)
        hl (fun _ => .ok (some (errorEnvelope m))) = ⟨none, .ack⟩) := by
  refine ⟨?_, ?_, fun _ _ _ _ _ _ => rfl, fun _ _ _ _ _ => rfl,
    fun _ _ _ _ _ _ => rfl, fun _ _ _ _ _ => rfl, fun _ _ _ _ _ => rfl,
    fun _ _ _ _ => rfl⟩
  · intro rt body h1 h2 h3 hdec
    simp [receiver_process_message, hdec]
  · intro rt body hl hg hdec
    simp [getter_process_message, hdec]

/-- Witness for `C2_decode_nack_fault_ack` at concrete inputs: an
unparsable body (`none`) and a parsable non-dict body are both
negatively-acknowledged, and a concrete business fault is published and
acknowledged. -/
theorem C2_decode_nack_fault_ack_witness :
    decode_request_envelope none = none ∧
    decode_request_envelope (some (.str "junk")) = none ∧
    receiver_process_message (some "rq") none
      (fun _ _ => .ok none) (fun _ _ => .ok none) (fun _ _ => .ok none) =
      ⟨none, .nack⟩ ∧
    getter_process_message (some "rq") (some (.str "junk"))
      (fun _ => .ok none) (fun _ => .ok none) = ⟨none, .nack⟩ ∧
    receiver_process_message (some "rq") (mkBody "upload_image" .null .null)
      (fun _ _ => .ok (some (errorEnvelope "Invalid file type")))
      (fun _ _ => .ok none) (fun _ _ => .ok none) =
      ⟨some ("rq", errorEnvelope "Invalid file type"), .ack⟩ := by
  refine ⟨rfl, rfl, ?_, ?_, ?_⟩
  · exact C2_decode_nack_fault_ack.1 (some "rq") none
      (fun _ _ => .ok none) (fun _ _ => .ok none) (fun _ _ => .ok none) rfl
  · exact C2_decode_nack_fault_ack.2.1 (some "rq") (some (.str "junk"))
      (fun _ => .ok none) (fun _ => .ok none) rfl
  · exact C2_decode_nack_fault_ack.2.2.1 "rq" .null .null
      "Invalid file type" (fun _ _ => .ok none) (fun _ _ => .ok none)

/-- C7: a decoded envelope whose event type lies outside the supported
set yields exactly the `{error: "Unknown event type"}` envelope
(published to the reply address when one is present) with an
acknowledgement, and the outcome is the same for arbitrary handler
functions: no handler is invoked. -/
theorem C7_unknown_event_no_handler :
    ∀ (rt : Option String) (et p rid : Json),
      (receiver_supported_event (some et) = false →
        ∀ h1 h2 h3,
          receiver_process_message rt (mkBodyJ et p rid) h1 h2 h3 =
            ⟨rt.map (fun q => (q, unknownEventError)), .ack⟩) ∧
      (getter_supported_event (some et) = false →
        ∀ hl hg,
          getter_process_message rt (mkBodyJ et p rid) hl hg =
            ⟨rt.map (fun q => (q, unknownEventError)), .ack⟩) := by
  intro rt et p rid
  constructor
  · intro hsup h1 h2 h3
    cases et with
    | str s =>
        have h' : ¬(s = "upload_image" ∨ s = "upload_pdf" ∨
            s = "create_object") := of_decide_eq_false hsup
        push_neg at h'
        obtain ⟨hs1, hs2, hs3⟩ := h'
        simp [receiver_process_message, decode_request_envelope, mkBodyJ,
          hs1, hs2, hs3, pyJson]
    | null => rfl
    | bool b => rfl
    | num n => rfl
    | arr xs => rfl
    | obj fs => rfl
  · intro hsup hl hg
    cases et with
    | str s =>
        have h' : ¬(s = "list_objects" ∨ s = "get_object") :=
          of_decide_eq_false hsup
        push_neg at h'
        obtain ⟨hs1, hs2⟩ := h'
        simp [getter_process_message, decode_request_envelope, mkBodyJ,
          hs1, hs2, pyJson]
    | null => rfl
    | bool b => rfl
    | num n => rfl
    | arr xs => rfl
    | obj fs => rfl

/-- Witness for `C7_unknown_event_no_handler` at a concrete unknown
event type. -/
theorem C7_unknown_event_witness :
    receiver_supported_event (some (.str "drop_object")) = false ∧
    getter_supported_event (some (.str "drop_object")) = false ∧
    receiver_process_message (some "rq")
      (mkBodyJ (.str "drop_object") .null .null)
      (fun _ _ => .ok none) (fun _ _ => .ok none) (fun _ _ => .ok none) =
      ⟨some ("rq", unknownEventError), .ack⟩ ∧
    getter_process_message (some "rq")
      (mkBodyJ (.str "drop_object") .null .null)
      (fun _ => .ok none) (fun _ => .ok none) =
      ⟨some ("rq", unknownEventError), .ack⟩ := by
  refine ⟨rfl, rfl, ?_, ?_⟩
  · exact (C7_unknown_event_no_handler (some "rq") (.str "drop_object")
      .null .null).1 rfl (fun _ _ => .ok none) (fun _ _ => .ok none)
      (fun _ _ => .ok none)
  · exact (C7_unknown_event_no_handler (some "rq") (.str "drop_object")
      .null .null).2 rfl (fun _ => .ok none) (fun _ => .ok none)

/-- C1 counterexample: there is an exit path — an exception raised
during the wait loop — on which the invocation propagates a failure
(HTTP 500) without cancelling the reply-queue consumer and without
deleting the reply queue, in both endpoints. This refutes the claim
that the consumer is cancelled and the queue deleted on every exit
path. -/
theorem C1_cleanup_counterexample :
    (list_objects_run ⟨.ok, .raises, .noFault⟩).consumerCancelled = false ∧
    (list_objects_run ⟨.ok, .raises, .noFault⟩).queueDeleted = false ∧
    (get_object_run ⟨.ok, .raises, .noFault⟩).consumerCancelled = false ∧
    (get_object_run ⟨.ok, .raises, .noFault⟩).queueDeleted = false :=
  ⟨rfl, rfl, rfl, rfl⟩

/-- C1 (amended): the consumer is cancelled and the reply queue deleted
on the reply-received and timeout exit paths (when the cleanup block
itself does not fault), but an exception raised during setup or during
the wait propagates as a 500 with neither the consumer cancelled nor
the queue deleted: the cleanup block sits after the wait loop inside
the `try`, not in a `finally`. -/
theorem C1_cleanup_amended :
    (∀ resp, list_objects_run ⟨.ok, .reply resp, .noFault⟩ =
      ⟨true, true, .ok resp⟩) ∧
    (list_objects_run ⟨.ok, .timeout, .noFault⟩ =
      ⟨true, true, .httpError 408⟩) ∧
    (∀ resp, get_object_run ⟨.ok, .reply resp, .noFault⟩ =
      ⟨true, true, get_object_reply_outcome resp⟩) ∧
    (get_object_run ⟨.ok, .timeout, .noFault⟩ =
      ⟨true, true, .httpError 408⟩) ∧
    (∀ c, list_objects_run ⟨.ok, .raises, c⟩ =
      ⟨false, false, .httpError 500⟩) ∧
    (∀ c, get_object_run ⟨.ok, .raises, c⟩ =
      ⟨false, false, .httpError 500⟩) ∧
    (∀ w c, list_objects_run ⟨.raises, w, c⟩ =
      ⟨false, false, .httpError 500⟩) ∧
    (∀ w c, get_object_run ⟨.raises, w, c⟩ =
      ⟨false, false, .httpError 500⟩) :=
  ⟨fun _ => rfl, rfl, fun _ => rfl, rfl, fun _ => rfl, fun _ => rfl,
   fun _ _ => rfl, fun _ _ => rfl⟩

/-- C6 counterexample: a message whose correlation id does not match is
not acknowledged — the callback leaves the slot untouched and performs
no acknowledgement at all. This refutes the claim that non-matching
messages are acknowledged. -/
theorem C6_nonmatching_counterexample :
    (response_callback "rid-1" none (some "rid-2") (some .null)).acked =
      false ∧
    (response_callback "rid-1" none (some "rid-2") (some .null)).slot =
      none ∧
    (response_callback "rid-1" none (some "rid-2") (some .null)).raised =
      false :=
  ⟨rfl, rfl, rfl⟩

/-- C6 (amended): a message whose correlation id does not equal the
request id of the call is ignored entirely — neither decoded, nor
acknowledged, nor stored in the result slot (so the wait continues);
only a matching message is decoded into the slot and acknowledged, and
a matching message whose body does not parse raises before the slot
assignment and the acknowledgement. -/
theorem C6_reply_matching :
    (∀ rid slot corr body, corr ≠ some rid →
      response_callback rid slot corr body = ⟨slot, false, false⟩) ∧
    (∀ rid slot j, response_callback rid slot (some rid) (some j) =
      ⟨some j, true, false⟩) ∧
    (∀ rid slot, response_callback rid slot (some rid) none =
      ⟨slot, false, true⟩) := by
  refine ⟨?_, ?_, ?_⟩
  · intro rid slot corr body h
    rw [response_callback.eq_def, if_neg h]
  · intro rid slot j
    rw [response_callback.eq_def, if_pos rfl]
  · intro rid slot
    rw [response_callback.eq_def, if_pos rfl]

/-- Witness for `C6_reply_matching` at concrete correlation ids. -/
theorem C6_reply_matching_witness :
    response_callback "r1" none (some "r2") (some .null) =
      ⟨none, false, false⟩ ∧
    response_callback "r1" none (some "r1") (some .null) =
      ⟨some .null, true, false⟩ ∧
    response_callback "r1" none (some "r1") none = ⟨none, false, true⟩ :=
  ⟨C6_reply_matching.1 "r1" none (some "r2") (some .null) (by decide),
   C6_reply_matching.2.1 "r1" none .null,
   C6_reply_matching.2.2 "r1" none⟩
